import Mathlib

/-!
Shallow embedding of the PSU interpreter
(`src/packages/debian/usr/lib/psu/interpreter/main.py`).

Python strings are modelled as Lean `String`, Python lists used as stacks
are modelled as Lean lists with the head as the stack top, Python dicts
(which preserve insertion order and update keys in place) as ordered
association lists, and `sys.exit(1)` after a caught error as
`Except.error`.  Script lines are modelled without their trailing
newline (the code strips every line before use, and the leading-space
count is unaffected by the trailing newline).
-/

/-- Python whitespace set used by `str.strip` / `str.lstrip` and by the
regex class `\s`. -/
def isPyWs (c : Char) : Bool :=
  c = ' ' || c = '\t' || c = '\n' || c = '\r' || c = '\x0b' || c = '\x0c'

/-- Regex word character `\w` (ASCII range, which is all the scripts use). -/
def isWordChar (c : Char) : Bool := c.isAlphanum || c = '_'

def pyStripChars (cs : List Char) : List Char :=
  ((cs.dropWhile isPyWs).reverse.dropWhile isPyWs).reverse

/-- Python `str.strip()`. -/
def pyStrip (s : String) : String := ⟨pyStripChars s.data⟩

/-- `len(line) - len(line.lstrip())`: the number of leading whitespace
characters of a line. -/
def pyLStripLen (s : String) : Nat := (s.data.takeWhile isPyWs).length

/-- Python `str.lower()` (ASCII). -/
def pyLower (s : String) : String := ⟨s.data.map Char.toLower⟩

def listStartsWith : List Char → List Char → Bool
  | [], _ => true
  | _ :: _, [] => false
  | p :: ps, c :: cs => p = c && listStartsWith ps cs

/-- `s.startswith(p)` for Python strings. -/
def strStarts (s p : String) : Bool := listStartsWith p.data s.data

/-- `s.endswith(p)` for Python strings. -/
def strEnds (s p : String) : Bool := listStartsWith p.data.reverse s.data.reverse

/-- Python `pat in s` (substring test). -/
def listHasSub (pat : List Char) : List Char → Bool
  | [] => pat.isEmpty
  | c :: cs => listStartsWith pat (c :: cs) || listHasSub pat cs

/-- Python `s.split(pat, 1)` when `pat` occurs in `s`: the parts before and
after the leftmost occurrence of `pat`. -/
def splitOnceAux (pat : List Char) : List Char → Option (List Char × List Char)
  | [] => none
  | c :: cs =>
      if listStartsWith pat (c :: cs) then some ([], (c :: cs).drop pat.length)
      else
        match splitOnceAux pat cs with
        | some (l, r) => some (c :: l, r)
        | none => none

/-- Python `str.strip('"')`: remove every leading and trailing double
quote. -/
def stripQuoteEnds (s : String) : String :=
  ⟨((s.data.dropWhile (· = '"')).reverse.dropWhile (· = '"')).reverse⟩

def takeWord (cs : List Char) : List Char := cs.takeWhile isWordChar

def dropWord (cs : List Char) : List Char := cs.dropWhile isWordChar

def skipWs (cs : List Char) : List Char := cs.dropWhile isPyWs

def digitsToNat (ds : List Char) : Nat := ds.foldl (fun n c => n * 10 + (c.toNat - 48)) 0

/-- Ordered-dictionary lookup (first matching key, as in a Python dict
maintained by `dictInsert`). -/
def lookupKey {α : Type} : List (String × α) → String → Option α
  | [], _ => none
  | (k, v) :: rest, n => if k == n then some v else lookupKey rest n

/-- Python `d[k] = v` on an insertion-ordered dict: update the existing
entry in place, otherwise append at the end. -/
def dictInsert {α : Type} : List (String × α) → String → α → List (String × α)
  | [], k, v => [(k, v)]
  | (k', v') :: rest, k, v =>
      if k' == k then (k, v) :: rest else (k', v') :: dictInsert rest k v

/-- One attempted match of `(\w+)=(?:"([^"]*)"|([^"\s,]+))` anchored at the
current position; on success returns the key, the two capture groups
(`none` = non-participating group) and the remaining input.  When the input
opens a quote that is never closed the bare-token alternative also fails
(its class excludes `"`), so the whole attempt fails, as in the regex. -/
def tryAttrMatch (cs : List Char) : Option (String × Option String × Option String × List Char) :=
  let w := takeWord cs
  let r := dropWord cs
  if w.isEmpty then none
  else
    match r with
    | '=' :: r2 =>
        match r2 with
        | '"' :: r3 =>
            let inner := r3.takeWhile (· ≠ '"')
            let rest := r3.dropWhile (· ≠ '"')
            (match rest with
             | '"' :: r4 => some (⟨w⟩, some ⟨inner⟩, none, r4)
             | _ => none)
        | _ =>
            let bare := r2.takeWhile (fun c => !(c = '"' || isPyWs c || c = ','))
            if bare.isEmpty then none
            else some (⟨w⟩, none, some ⟨bare⟩, r2.drop bare.length)
    | _ => none

/-- `re.findall` scanning for the attribute regex: try a match at each
position, resume after a match, advance one character after a failure.
The fuel starts at the input length; every step consumes at least one
character, so it never runs out. -/
def findAttrMatchesAux : Nat → List Char → List (String × Option String × Option String)
  | 0, _ => []
  | _ + 1, [] => []
  | n + 1, c :: cs =>
      match tryAttrMatch (c :: cs) with
      | some (k, v1, v2, rest) => (k, v1, v2) :: findAttrMatchesAux n rest
      | none => findAttrMatchesAux n cs

def findAttrMatches (cs : List Char) : List (String × Option String × Option String) :=
  findAttrMatchesAux cs.length cs

/-- `parse_attributes` from the source.  `re.findall` yields `''` (not
`None`) for a non-participating group, so the source's
`val1 if val1 is not None else val2` always selects the first (quoted)
group: a bare-token match stores the empty string, never `val2`. -/
def parse_attributes (attr_string : String) : List (String × String) :=
  if attr_string == "" then []
  else
    (findAttrMatches attr_string.data).foldl
      (fun d kv =>
        dictInsert d kv.1
          (match kv.2.1 with
           | some s => s
           | none => ""))
      []

/-- The value kinds a PSU variable can hold.  `vNone` is the host `None`
(stored when restricted evaluation of a `set` expression fails);
`vFloat` keeps the literal text of a fractional number (the host's float
re-formatting is not modelled: no claim touches fractional output). -/
inductive Value : Type
  | vNone : Value
  | vStr (s : String) : Value
  | vBool (b : Bool) : Value
  | vInt (i : Int) : Value
  | vFloat (lit : String) : Value
deriving Repr, DecidableEq

/-- Python `str(value)` for the stored value kinds. -/
def pyStr : Value → String
  | Value.vNone => "None"
  | Value.vStr s => s
  | Value.vBool true => "True"
  | Value.vBool false => "False"
  | Value.vInt i => toString i
  | Value.vFloat lit => lit

/-- Python `str(x)` where `x` may be `None` (a failed `variables.get`). -/
def pyStrOfOpt : Option Value → String
  | some v => pyStr v
  | none => "None"

/-- Python `bool(value)` truthiness.  A non-empty string — including
`"false"` — is truthy; a fractional literal is truthy when it has a
nonzero digit. -/
def pyTruthy : Value → Bool
  | Value.vNone => false
  | Value.vStr s => !(s == "")
  | Value.vBool b => b
  | Value.vInt i => !(i == 0)
  | Value.vFloat lit => lit.data.any (fun c => c.isDigit && c ≠ '0')

/-- The replacement text for one `$\x7bname\x7d` occurrence:
`str(variables.get(name, f"UNDEFINED_VAR_\x7bname\x7d"))`. -/
def interpSubst (vars : List (String × Value)) (name : List Char) : String :=
  match lookupKey vars ⟨name⟩ with
  | some v => pyStr v
  | none => "UNDEFINED_VAR_" ++ ⟨name⟩

/-- `re.sub(r'\$\{(\w+)\}', ...)` scanning: substitute each marker, advance
one character when the pattern fails to match at a `$`.  Fuel starts at
the input length and every step consumes at least one character. -/
def interpAux (vars : List (String × Value)) : Nat → List Char → List Char
  | 0, cs => cs
  | _ + 1, [] => []
  | n + 1, '$' :: '\x7b' :: cs =>
      let w := takeWord cs
      let r := dropWord cs
      (match w, r with
       | _ :: _, '\x7d' :: rest => (interpSubst vars w).data ++ interpAux vars n rest
       | _, _ => '$' :: '\x7b' :: interpAux vars n cs)
  | n + 1, c :: cs => c :: interpAux vars n cs

/-- `interpolate_variables` from the source. -/
def interpolate_variables (vars : List (String × Value)) (text : String) : String :=
  ⟨interpAux vars text.data.length text.data⟩

/-- The `==` / `!=` comparison of the `if` evaluator: the left operand is
resolved as a variable (`variables.get(left)`, default `None`) and
stringified; the right operand is unquoted when fully quoted; both sides
are lowercased. -/
def condCompare (vars : List (String × Value)) (l r : List Char) (eq : Bool) : Bool :=
  let left := pyStrip ⟨l⟩
  let right := pyStrip ⟨r⟩
  let leftVal := pyLower (pyStrOfOpt (lookupKey vars left))
  let rightVal :=
    if strStarts right "\"" && strEnds right "\"" then pyLower (stripQuoteEnds right)
    else pyLower right
  if eq then leftVal == rightVal else !(leftVal == rightVal)

/-- The `if` condition evaluator from the source (lines 390-407).  Note the
literal test `condition_expr in ['true', 'false']` is case-sensitive, and
the fallback is host truthiness of `variables.get(expr, False)`. -/
def eval_condition (vars : List (String × Value)) (expr : String) : Bool :=
  if listHasSub "==".data expr.data then
    match splitOnceAux "==".data expr.data with
    | some (l, r) => condCompare vars l r true
    | none => false
  else if listHasSub "!=".data expr.data then
    match splitOnceAux "!=".data expr.data with
    | some (l, r) => condCompare vars l r false
    | none => false
  else if expr == "true" || expr == "false" then
    pyLower expr == "true"
  else
    pyTruthy ((lookupKey vars expr).getD (Value.vBool false))

/-- The exceptions Python `eval` can raise in the `set` fallback:
`evalCaught` stands for the caught trio `NameError`/`SyntaxError`/
`TypeError`; `evalOther` for any other exception (reaches the generic
handler and aborts the run). -/
inductive PyEvalErr : Type
  | evalCaught : PyEvalErr
  | evalOther (msg : String) : PyEvalErr
deriving Repr, DecidableEq

/-- The host's restricted `eval(value_expr, safe_globals, variables)` call,
kept abstract: the interpreter is parameterised over it (no claim depends
on a successful evaluation). -/
def PyEval : Type := String → List (String × Value) → Except PyEvalErr Value

/-- An evaluation oracle for concrete runs whose scripts never reach the
`eval` fallback. -/
def evalNone : PyEval := fun _ _ => Except.error PyEvalErr.evalCaught

/-- One open block: `(indent_level, 'command_type', {command_data})`.
`htmlTag` is the `'html_tag'` entry of the data dict; it is only ever
read for `section`/`container`/`list` frames (the others carry `""`). -/
structure BFrame : Type where
  indent : Nat
  ctype : String
  htmlTag : String
deriving Repr, DecidableEq

/-- The interpreter's global state, reset at the start of each run. -/
structure PsuState : Type where
  varMap : List (String × Value)
  html_output_buffer : List String
  output_filename : String
  html_tag_stack : List String
  block_stack : List BFrame
  skip_current_block : Bool
  if_conditions_met_stack : List Bool
deriving Repr, DecidableEq

/-- A fatal error: the 1-based source line number reported and the message;
`sys.exit(1)` before the output file is written. -/
structure PsuError : Type where
  line : Nat
  msg : String
deriving Repr, DecidableEq

def initState : PsuState :=
  { varMap := []
    html_output_buffer := []
    output_filename := "index.html"
    html_tag_stack := []
    block_stack := []
    skip_current_block := false
    if_conditions_met_stack := [] }

def indentStr (n : Nat) : String := ⟨List.replicate (4 * n) ' '⟩

/-- `get_html_indent`: four spaces per open tag. -/
def get_html_indent (st : PsuState) : String := indentStr st.html_tag_stack.length

/-- `append_html_line`: append one line, pre-indented at the current
open-tag depth. -/
def append_html_line (st : PsuState) (content : String) : PsuState :=
  { st with html_output_buffer := st.html_output_buffer ++ [get_html_indent st ++ content] }

/-- Closing an `if` frame during the dedent pass: pop the conditional
result; if no `if` remains the skip flag resets, otherwise it is the
negation of the new top. -/
def popIfRecompute (st : PsuState) : PsuState :=
  match st.if_conditions_met_stack with
  | [] => st
  | _ :: rest =>
      { st with
        if_conditions_met_stack := rest
        skip_current_block :=
          match rest with
          | [] => false
          | top :: _ => !top }

/-- The body of the dedent `while` loop (lines 104-131), for one popped
frame: conditional bookkeeping for `if`, then the closing markup.  Note
`page` emits `"    </body>"` and `"</html>"` without popping the open-tag
stack, and `loop` frames close silently. -/
def closeOne (st : PsuState) (f : BFrame) : PsuState :=
  let st := if f.ctype == "if" then popIfRecompute st else st
  if f.ctype == "page" then
    append_html_line (append_html_line st "    </body>") "</html>"
  else if f.ctype == "section" || f.ctype == "container" || f.ctype == "list" then
    let st := append_html_line st ("</" ++ f.htmlTag ++ ">")
    if st.html_tag_stack.head? == some f.htmlTag then
      { st with html_tag_stack := st.html_tag_stack.tail }
    else st
  else if f.ctype == "card" then
    let st := append_html_line st "</div>"
    if st.html_tag_stack.head? == some "div" then
      { st with html_tag_stack := st.html_tag_stack.tail }
    else st
  else if f.ctype == "card_body" || f.ctype == "card_footer" then
    let st := append_html_line st "</div>"
    if st.html_tag_stack.head? == some "div" then
      { st with html_tag_stack := st.html_tag_stack.tail }
    else st
  else st

/-- The dedent pass: pop and close every frame whose recorded indentation
is ≥ the current line's indentation (`line_indent_spaces <= top.indent`). -/
def closeBlocksAux (indent : Nat) : List BFrame → PsuState → PsuState
  | [], st => { st with block_stack := [] }
  | f :: rest, st =>
      if indent ≤ f.indent then
        closeBlocksAux indent rest (closeOne { st with block_stack := rest } f)
      else { st with block_stack := f :: rest }

def closeBlocks (indent : Nat) (st : PsuState) : PsuState :=
  closeBlocksAux indent st.block_stack st

/-- One popped frame of the end-of-script cleanup (lines 459-478): unlike
the dedent pass it does nothing for `page` frames (the code's comment
claims they were handled earlier, but no closing tags are emitted), and
it never touches the conditional stacks. -/
def finalCloseOne (st : PsuState) (f : BFrame) : PsuState :=
  if f.ctype == "page" then st
  else if f.ctype == "section" || f.ctype == "container" || f.ctype == "list" then
    let st := append_html_line st ("</" ++ f.htmlTag ++ ">")
    if st.html_tag_stack.head? == some f.htmlTag then
      { st with html_tag_stack := st.html_tag_stack.tail }
    else st
  else if f.ctype == "card" then
    let st := append_html_line st "</div>"
    if st.html_tag_stack.head? == some "div" then
      { st with html_tag_stack := st.html_tag_stack.tail }
    else st
  else if f.ctype == "card_body" || f.ctype == "card_footer" then
    let st := append_html_line st "</div>"
    if st.html_tag_stack.head? == some "div" then
      { st with html_tag_stack := st.html_tag_stack.tail }
    else st
  else st

def finalCleanupAux : List BFrame → PsuState → PsuState
  | [], st => { st with block_stack := [] }
  | f :: rest, st => finalCleanupAux rest (finalCloseOne { st with block_stack := rest } f)

/-- The exhaustive end-of-script cleanup. -/
def finalCleanup (st : PsuState) : PsuState :=
  finalCleanupAux st.block_stack st

/-- `' '.join(...)`. -/
def joinSpace : List String → String
  | [] => ""
  | [x] => x
  | x :: xs => x ++ " " ++ joinSpace xs

/-- `'\n'.join(...)`. -/
def joinNl : List String → String
  | [] => ""
  | [x] => x
  | x :: xs => x ++ "\n" ++ joinNl xs

/-- The final artifact written to the output file. -/
def final_html_content (st : PsuState) : String := joinNl st.html_output_buffer

/-- `attr_str_html`: `' '.join(f'k="interp(v)"' ...)`. -/
def attrsHtmlStr (vars : List (String × Value)) (attrs : List (String × String)) : String :=
  joinSpace (attrs.map (fun kv => kv.1 ++ "=\"" ++ interpolate_variables vars kv.2 ++ "\""))

/-- Python `s.replace(pat, repl)` (all occurrences, left to right); only
called with a non-empty pattern, so the length fuel suffices. -/
def strReplaceAux (pat repl : List Char) : Nat → List Char → List Char
  | 0, cs => cs
  | _ + 1, [] => []
  | n + 1, c :: cs =>
      if !pat.isEmpty && listStartsWith pat (c :: cs) then
        repl ++ strReplaceAux pat repl n ((c :: cs).drop pat.length)
      else c :: strReplaceAux pat repl n cs

def strReplace (s pat repl : String) : String :=
  ⟨strReplaceAux pat.data repl.data s.data.length s.data⟩

/-- `re.match(r'(\w+)\s*(.*)', trimmed_line)`: the command keyword and the
rest of the line. -/
def matchCmdLine (s : String) : Option (String × String) :=
  let w := takeWord s.data
  if w.isEmpty then none
  else some (⟨w⟩, ⟨skipWs (dropWord s.data)⟩)

/-- `arg_string.rstrip(':')`. -/
def rstripColons (s : String) : String := ⟨(s.data.reverse.dropWhile (· = ':')).reverse⟩

/-- Lines 149-152: strip a trailing block colon then re-strip. -/
def colonStripArg (s : String) : String :=
  if strEnds s ":" then pyStrip (rstripColons s) else s

/-- `re.match(r'"([^"]+)"\s*(.*)', arg)`: a non-empty quoted argument and
the remainder after any whitespace. -/
def matchQuoted (s : String) : Option (String × String) :=
  match s.data with
  | '"' :: cs =>
      let inner := cs.takeWhile (· ≠ '"')
      let rest := cs.dropWhile (· ≠ '"')
      (match inner, rest with
       | _ :: _, '"' :: r => some (⟨inner⟩, ⟨skipWs r⟩)
       | _, _ => none)
  | _ => none

/-- `re.match(r'(\w+)\s*=\s*(.+);', arg)`: the variable name and the
expression text, which the greedy `(.+)` extends to the *last* semicolon;
the match needs at least one character before that semicolon, and the
group is then stripped. -/
def matchSet (s : String) : Option (String × String) :=
  let w := takeWord s.data
  if w.isEmpty then none
  else
    match skipWs (dropWord s.data) with
    | '=' :: r0 =>
        (match (r0.reverse.dropWhile (· ≠ ';')) with
         | ';' :: beforeRev =>
             if beforeRev.isEmpty then none
             else some (⟨w⟩, pyStrip ⟨beforeRev.reverse⟩)
         | _ => none)
    | _ => none

/-- `re.match(r'level=(\d+)\s*"([^"]+)"\s*(.*)', arg)`. -/
def matchHeading (s : String) : Option (Nat × String × String) :=
  if strStarts s "level=" then
    let r := s.data.drop 6
    let ds := r.takeWhile Char.isDigit
    if ds.isEmpty then none
    else
      match matchQuoted ⟨skipWs (r.drop ds.length)⟩ with
      | some (text, rest) => some (digitsToNat ds, text, rest)
      | none => none
  else none

/-- `re.match(r'"([^"]+)"\s*"([^"]+)"\s*(.*)', arg)` for `link`. -/
def matchLink (s : String) : Option (String × String × String) :=
  match matchQuoted s with
  | some (t1, r1) =>
      (match matchQuoted r1 with
       | some (t2, r2) => some (t1, t2, r2)
       | none => none)
  | none => none

/-- `re.match(r'type="(ordered|unordered)"\s*(.*)', arg)`, returning the
HTML tag (`ol` for ordered, `ul` for unordered) and the remainder. -/
def matchList (s : String) : Option (String × String) :=
  if strStarts s "type=\"ordered\"" then
    some ("ol", ⟨skipWs (s.data.drop ("type=\"ordered\"".length))⟩)
  else if strStarts s "type=\"unordered\"" then
    some ("ul", ⟨skipWs (s.data.drop ("type=\"unordered\"".length))⟩)
  else none

/-- `re.match(r'title="([^"]+)"\s*(.*)', arg)` for `card`. -/
def matchCard (s : String) : Option (String × String) :=
  if strStarts s "title=\"" then
    let r := s.data.drop 7
    let inner := r.takeWhile (· ≠ '"')
    let rest := r.dropWhile (· ≠ '"')
    (match inner, rest with
     | _ :: _, '"' :: r2 => some (⟨inner⟩, ⟨skipWs r2⟩)
     | _, _ => none)
  else none

/-- The number-literal test `^-?\d+(\.\d+)?$` of the `set` classifier. -/
def isNumLit (s : String) : Bool :=
  let cs :=
    match s.data with
    | '-' :: t => t
    | t => t
  let intPart := cs.takeWhile Char.isDigit
  let rest := cs.dropWhile Char.isDigit
  !intPart.isEmpty &&
    (rest.isEmpty ||
      (match rest with
       | '.' :: fr => !fr.isEmpty && fr.all Char.isDigit
       | _ => false))

def strToInt (s : String) : Int :=
  match s.data with
  | '-' :: ds => -(digitsToNat ds : Int)
  | ds => (digitsToNat ds : Int)

/-- `float(expr) if '.' in expr else int(expr)` for a matched number
literal. -/
def parseNumValue (s : String) : Value :=
  if listHasSub ".".data s.data then Value.vFloat s else Value.vInt (strToInt s)

/-- The quoted-literal test of the `set` classifier:
`value_expr.startswith('"') and value_expr.endswith('"')`. -/
def isQuotedExpr (s : String) : Bool := strStarts s "\"" && strEnds s "\""

/-- The boolean-literal test of the `set` classifier:
`value_expr.lower() in ['true', 'false']`. -/
def isBoolLitExpr (s : String) : Bool := pyLower s == "true" || pyLower s == "false"

/-- `output_html "file"` (lines 157-162). -/
def cmdOutputHtml (idx : Nat) (arg : String) (st : PsuState) : Except PsuError PsuState :=
  match matchQuoted arg with
  | some (name, _) => Except.ok { st with output_filename := name }
  | none => Except.error ⟨idx + 1, "`output_html` expects a quoted filename."⟩

/-- `set name = expr;` (lines 165-186): classify the expression as a
string, boolean or number literal, otherwise fall back to restricted
evaluation; on a caught evaluation failure the variable is set to the
host `None` and the run continues. -/
def cmdSet (ev : PyEval) (idx : Nat) (arg : String) (st : PsuState) :
    Except PsuError PsuState :=
  match matchSet arg with
  | some (name, expr) =>
      if isQuotedExpr expr then
        Except.ok { st with varMap := dictInsert st.varMap name (Value.vStr (stripQuoteEnds expr)) }
      else if isBoolLitExpr expr then
        Except.ok { st with varMap := dictInsert st.varMap name (Value.vBool (pyLower expr == "true")) }
      else if isNumLit expr then
        Except.ok { st with varMap := dictInsert st.varMap name (parseNumValue expr) }
      else
        match ev expr st.varMap with
        | Except.ok v => Except.ok { st with varMap := dictInsert st.varMap name v }
        | Except.error PyEvalErr.evalCaught =>
            Except.ok { st with varMap := dictInsert st.varMap name Value.vNone }
        | Except.error (PyEvalErr.evalOther m) => Except.error ⟨idx + 1, m⟩
  | none => Except.error ⟨idx + 1, "Invalid `set` command syntax."⟩

/-- `page "title" [attrs]` (lines 189-214): doctype, `<html>`, head block
(title plus optional stylesheet/script/favicon links, not interpolated),
`<body>`; `head` is popped after `</head>` while `html` and `body` stay
on the open-tag stack; pushes a `page` frame. -/
def cmdPage (idx indent : Nat) (arg : String) (st : PsuState) : Except PsuError PsuState :=
  match matchQuoted arg with
  | some (title, rest) =>
      let attrs := parse_attributes (pyStrip rest)
      let st := append_html_line st "<!DOCTYPE html>"
      let st := append_html_line st "<html>"
      let st := { st with html_tag_stack := "html" :: st.html_tag_stack }
      let st := append_html_line st "<head>"
      let st := { st with html_tag_stack := "head" :: st.html_tag_stack }
      let st := append_html_line st ("    <title>" ++ interpolate_variables st.varMap title ++ "</title>")
      let st :=
        match lookupKey attrs "stylesheet" with
        | some v => append_html_line st ("    <link rel=\"stylesheet\" href=\"" ++ v ++ "\">")
        | none => st
      let st :=
        match lookupKey attrs "script" with
        | some v => append_html_line st ("    <script src=\"" ++ v ++ "\"></script>")
        | none => st
      let st :=
        match lookupKey attrs "favicon" with
        | some v => append_html_line st ("    <link rel=\"icon\" href=\"" ++ v ++ "\">")
        | none => st
      let st := append_html_line st "</head>"
      let st := { st with html_tag_stack := st.html_tag_stack.tail }
      let st := append_html_line st "<body>"
      let st := { st with html_tag_stack := "body" :: st.html_tag_stack }
      Except.ok { st with block_stack := ⟨indent, "page", ""⟩ :: st.block_stack }
  | none => Except.error ⟨idx + 1, "Invalid `page` command syntax."⟩

/-- `meta_info [attrs]` (lines 217-220). -/
def cmdMeta (arg : String) (st : PsuState) : Except PsuError PsuState :=
  let attrs := parse_attributes arg
  Except.ok (append_html_line st ("<meta " ++ attrsHtmlStr st.varMap attrs ++ ">"))

/-- `section "id" [attrs]` (lines 223-246), with the `full_width` custom
attribute folded into the class string and removed from the emitted
attributes. -/
def cmdSection (idx indent : Nat) (arg : String) (st : PsuState) : Except PsuError PsuState :=
  match matchQuoted arg with
  | some (sid, rest) =>
      let attrs := parse_attributes (pyStrip rest)
      let extraClass :=
        match lookupKey attrs "full_width" with
        | some v => if pyLower v == "true" then " full-width-section" else ""
        | none => ""
      let existingClass := (lookupKey attrs "class").getD ""
      let finalClass :=
        if !(existingClass == "") || !(extraClass == "") then
          pyStrip ("class=\"" ++ existingClass ++ extraClass ++ "\"")
        else ""
      let filtered := attrs.filter (fun kv => !(kv.1 == "full_width"))
      let attrStr := attrsHtmlStr st.varMap filtered
      let st := append_html_line st
        (pyStrip ("<section id=\"" ++ interpolate_variables st.varMap sid ++ "\" " ++
          finalClass ++ " " ++ attrStr ++ ">"))
      let st := { st with html_tag_stack := "section" :: st.html_tag_stack }
      Except.ok { st with block_stack := ⟨indent, "section", "section"⟩ :: st.block_stack }
  | none => Except.error ⟨idx + 1, "Invalid `section` command syntax."⟩

/-- `container [attrs]` (lines 249-254). -/
def cmdContainer (indent : Nat) (arg : String) (st : PsuState) : Except PsuError PsuState :=
  let attrs := parse_attributes arg
  let st := append_html_line st ("<div " ++ attrsHtmlStr st.varMap attrs ++ ">")
  let st := { st with html_tag_stack := "div" :: st.html_tag_stack }
  Except.ok { st with block_stack := ⟨indent, "container", "div"⟩ :: st.block_stack }

/-- `heading level=N "text" [attrs]` (lines 257-269): the level must lie in
1..6, otherwise the run aborts. -/
def cmdHeading (idx : Nat) (arg : String) (st : PsuState) : Except PsuError PsuState :=
  match matchHeading arg with
  | some (level, text, rest) =>
      let attrs := parse_attributes (pyStrip rest)
      let attrStr := attrsHtmlStr st.varMap attrs
      if 1 ≤ level ∧ level ≤ 6 then
        Except.ok (append_html_line st
          ("<h" ++ toString level ++ " " ++ attrStr ++ ">" ++
            interpolate_variables st.varMap text ++ "</h" ++ toString level ++ ">"))
      else Except.error ⟨idx + 1, "Heading level must be between 1 and 6."⟩
  | none => Except.error ⟨idx + 1, "Invalid `heading` command syntax."⟩

/-- `paragraph "text" [attrs]` (lines 272-281). -/
def cmdParagraph (idx : Nat) (arg : String) (st : PsuState) : Except PsuError PsuState :=
  match matchQuoted arg with
  | some (text, rest) =>
      let attrs := parse_attributes (pyStrip rest)
      Except.ok (append_html_line st
        ("<p " ++ attrsHtmlStr st.varMap attrs ++ ">" ++
          interpolate_variables st.varMap text ++ "</p>"))
  | none => Except.error ⟨idx + 1, "Invalid `paragraph` command syntax."⟩

/-- `image "src" [attrs]` (lines 284-293). -/
def cmdImage (idx : Nat) (arg : String) (st : PsuState) : Except PsuError PsuState :=
  match matchQuoted arg with
  | some (src, rest) =>
      let attrs := parse_attributes (pyStrip rest)
      Except.ok (append_html_line st
        ("<img src=\"" ++ interpolate_variables st.varMap src ++ "\" " ++
          attrsHtmlStr st.varMap attrs ++ ">"))
  | none => Except.error ⟨idx + 1, "Invalid `image` command syntax."⟩

/-- `button "text" [attrs]` (lines 296-305). -/
def cmdButton (idx : Nat) (arg : String) (st : PsuState) : Except PsuError PsuState :=
  match matchQuoted arg with
  | some (text, rest) =>
      let attrs := parse_attributes (pyStrip rest)
      Except.ok (append_html_line st
        ("<button " ++ attrsHtmlStr st.varMap attrs ++ ">" ++
          interpolate_variables st.varMap text ++ "</button>"))
  | none => Except.error ⟨idx + 1, "Invalid `button` command syntax."⟩

/-- `link "text" "href" [attrs]` (lines 308-318). -/
def cmdLink (idx : Nat) (arg : String) (st : PsuState) : Except PsuError PsuState :=
  match matchLink arg with
  | some (text, href, rest) =>
      let attrs := parse_attributes (pyStrip rest)
      Except.ok (append_html_line st
        ("<a href=\"" ++ interpolate_variables st.varMap href ++ "\" " ++
          attrsHtmlStr st.varMap attrs ++ ">" ++
          interpolate_variables st.varMap text ++ "</a>"))
  | none => Except.error ⟨idx + 1, "Invalid `link` command syntax."⟩

/-- `list type="ordered|unordered" [attrs]` (lines 321-333). -/
def cmdList (idx indent : Nat) (arg : String) (st : PsuState) : Except PsuError PsuState :=
  match matchList arg with
  | some (tag, rest) =>
      let attrs := parse_attributes (pyStrip rest)
      let st := append_html_line st ("<" ++ tag ++ " " ++ attrsHtmlStr st.varMap attrs ++ ">")
      let st := { st with html_tag_stack := tag :: st.html_tag_stack }
      Except.ok { st with block_stack := ⟨indent, "list", tag⟩ :: st.block_stack }
  | none => Except.error ⟨idx + 1, "Invalid `list` command syntax."⟩

/-- `item "text" [attrs]` (lines 336-348): structural check first — the
frame atop the stack must be a `list`. -/
def cmdItem (idx : Nat) (arg : String) (st : PsuState) : Except PsuError PsuState :=
  if (st.block_stack.head?.map BFrame.ctype) == some "list" then
    match matchQuoted arg with
    | some (text, rest) =>
        let attrs := parse_attributes (pyStrip rest)
        Except.ok (append_html_line st
          ("<li " ++ attrsHtmlStr st.varMap attrs ++ ">" ++
            interpolate_variables st.varMap text ++ "</li>"))
    | none => Except.error ⟨idx + 1, "Invalid `item` command syntax."⟩
  else Except.error ⟨idx + 1, "`item` command must be directly inside a `list` block."⟩

/-- `card title="t" [attrs]` (lines 351-371): outer card div (with the
raw class text removed from the attribute string), header block, then the
`div` tag and `card` frame are pushed. -/
def cmdCard (idx indent : Nat) (arg : String) (st : PsuState) : Except PsuError PsuState :=
  match matchCard arg with
  | some (title, rest) =>
      let attrs := parse_attributes (pyStrip rest)
      let attrStr := attrsHtmlStr st.varMap attrs
      let cardClass := (lookupKey attrs "class").getD ""
      let st := append_html_line st
        (pyStrip ("<div class=\"psu-card " ++ cardClass ++ "\" " ++
          strReplace attrStr ("class=\"" ++ cardClass ++ "\"") "" ++ ">"))
      let st := append_html_line st "    <div class=\"psu-card-header\">"
      let st := append_html_line st
        ("        <h2>" ++ interpolate_variables st.varMap title ++ "</h2>")
      let st := append_html_line st "    </div>"
      let st := { st with html_tag_stack := "div" :: st.html_tag_stack }
      Except.ok { st with block_stack := ⟨indent, "card", ""⟩ :: st.block_stack }
  | none => Except.error ⟨idx + 1, "Invalid `card` command syntax."⟩

/-- `card_body` (lines 374-379): must sit directly inside a `card`. -/
def cmdCardBody (idx indent : Nat) (st : PsuState) : Except PsuError PsuState :=
  if (st.block_stack.head?.map BFrame.ctype) == some "card" then
    let st := append_html_line st "<div class=\"psu-card-body\">"
    let st := { st with html_tag_stack := "div" :: st.html_tag_stack }
    Except.ok { st with block_stack := ⟨indent, "card_body", ""⟩ :: st.block_stack }
  else Except.error ⟨idx + 1, "`card_body` must be directly inside a `card` block."⟩

/-- `card_footer` (lines 382-387): must sit directly inside a `card`. -/
def cmdCardFooter (idx indent : Nat) (st : PsuState) : Except PsuError PsuState :=
  if (st.block_stack.head?.map BFrame.ctype) == some "card" then
    let st := append_html_line st "<div class=\"psu-card-footer\">"
    let st := { st with html_tag_stack := "div" :: st.html_tag_stack }
    Except.ok { st with block_stack := ⟨indent, "card_footer", ""⟩ :: st.block_stack }
  else Except.error ⟨idx + 1, "`card_footer` must be directly inside a `card` block."⟩

/-- `if cond:` (lines 390-413): evaluate, push the result and an `if`
frame; skip when the own result is false or any enclosing result is
false. -/
def cmdIf (indent : Nat) (arg : String) (st : PsuState) : Except PsuError PsuState :=
  let res := eval_condition st.varMap arg
  Except.ok
    { st with
      if_conditions_met_stack := res :: st.if_conditions_met_stack
      skip_current_block := !res || st.if_conditions_met_stack.any (fun x => !x)
      block_stack := ⟨indent, "if", ""⟩ :: st.block_stack }

/-- `else:` (lines 416-427): requires an `if` frame atop the block stack at
the same indentation, then inverts its conditional result and recomputes
the skip flag.  (The frame stays on the stack.)  When the structural check
passes with an empty conditional stack the host would raise an uncaught
`IndexError`; that combination cannot occur, and it is mapped to the
generic fatal handler. -/
def cmdElse (idx indent : Nat) (st : PsuState) : Except PsuError PsuState :=
  match st.block_stack with
  | f :: _ =>
      if f.ctype == "if" && indent == f.indent then
        match st.if_conditions_met_stack with
        | prevRes :: restIfs =>
            let cur := !prevRes
            Except.ok
              { st with
                if_conditions_met_stack := cur :: restIfs
                skip_current_block := !cur || restIfs.any (fun x => !x) }
        | [] => Except.error ⟨idx + 1, "pop from empty list"⟩
      else
        Except.error ⟨idx + 1, "`else` command must immediately follow an `if` block at the same indentation level."⟩
  | [] =>
      Except.error ⟨idx + 1, "`else` command must immediately follow an `if` block at the same indentation level."⟩

/-- `loop …:` (lines 430-439): warning only; a `loop` frame is pushed and
the skip flag is set so the body is suppressed. -/
def cmdLoop (indent : Nat) (st : PsuState) : Except PsuError PsuState :=
  Except.ok
    { st with
      block_stack := ⟨indent, "loop", ""⟩ :: st.block_stack
      skip_current_block := true }

/-- The command dispatch chain (lines 155-445); an unknown command is a
warning and the line is skipped. -/
def dispatchCmd (ev : PyEval) (idx indent : Nat) (cmd arg : String) (st : PsuState) :
    Except PsuError PsuState :=
  if cmd == "output_html" then cmdOutputHtml idx arg st
  else if cmd == "set" then cmdSet ev idx arg st
  else if cmd == "page" then cmdPage idx indent arg st
  else if cmd == "meta_info" then cmdMeta arg st
  else if cmd == "section" then cmdSection idx indent arg st
  else if cmd == "container" then cmdContainer indent arg st
  else if cmd == "heading" then cmdHeading idx arg st
  else if cmd == "paragraph" then cmdParagraph idx arg st
  else if cmd == "image" then cmdImage idx arg st
  else if cmd == "button" then cmdButton idx arg st
  else if cmd == "link" then cmdLink idx arg st
  else if cmd == "list" then cmdList idx indent arg st
  else if cmd == "item" then cmdItem idx arg st
  else if cmd == "card" then cmdCard idx indent arg st
  else if cmd == "card_body" then cmdCardBody idx indent st
  else if cmd == "card_footer" then cmdCardFooter idx indent st
  else if cmd == "if" then cmdIf indent arg st
  else if cmd == "else" then cmdElse idx indent st
  else if cmd == "loop" then cmdLoop indent st
  else Except.ok st

/-- One iteration of the main line loop (lines 92-456) for the line at
0-based index `idx`: comment/blank lines are skipped *before* the dedent
pass runs; then blocks are closed, the skip flag is consulted, and the
command is parsed (trailing block colons stripped) and dispatched. -/
def stepLine (ev : PyEval) (idx : Nat) (line : String) (st : PsuState) :
    Except PsuError PsuState :=
  let trimmed := pyStrip line
  let indent := pyLStripLen line
  if strStarts trimmed ".." || trimmed == "" then Except.ok st
  else
    let st := closeBlocks indent st
    if st.skip_current_block then Except.ok st
    else
      match matchCmdLine trimmed with
      | none => Except.error ⟨idx + 1, "Malformed line: " ++ trimmed⟩
      | some (cmd, argRaw) =>
          dispatchCmd ev idx indent cmd (colonStripArg (pyStrip argRaw)) st

/-- The main loop over the remaining lines, threading the 0-based line
index; a fatal error aborts the whole run. -/
def runLines (ev : PyEval) : Nat → List String → PsuState → Except PsuError PsuState
  | _, [], st => Except.ok st
  | idx, l :: rest, st =>
      match stepLine ev idx l st with
      | Except.ok st' => runLines ev (idx + 1) rest st'
      | Except.error e => Except.error e

/-- `execute_psu_script`: header validation (`psload` on line 1, `psstart`
on line 2), the main loop from line index 2, then the end-of-script
cleanup.  A returned `Except.ok` state is the state at the moment the
output file is written; `Except.error` means the run exited before any
write. -/
def execute_psu_script (ev : PyEval) (lines : List String) : Except PsuError PsuState :=
  match lines with
  | [] => Except.error ⟨1, "script must start with psload on the first line."⟩
  | l0 :: rest0 =>
      if !(pyStrip l0 == "psload") then
        Except.error ⟨1, "script must start with psload on the first line."⟩
      else
        match rest0 with
        | [] => Except.error ⟨2, "script must have psstart on the second line."⟩
        | l1 :: body =>
            if !(pyStrip l1 == "psstart") then
              Except.error ⟨2, "script must have psstart on the second line."⟩
            else
              match runLines ev 2 body initState with
              | Except.ok st => Except.ok (finalCleanup st)
              | Except.error e => Except.error e

/-- A script with an `if` block followed by `else` at the same
indentation. -/
def ifElseScript : List String :=
  ["psload", "psstart", "if true:", "    paragraph \"a\":", "else:", "    paragraph \"b\":"]

/-- A script whose `page` block is still open at end-of-input. -/
def pageOnlyScript : List String :=
  ["psload", "psstart", "page \"T\":"]

/-- A script with a `loop` block followed by a command at the loop's own
indentation. -/
def loopScript : List String :=
  ["psload", "psstart", "loop i from 1 to 3:", "    paragraph \"in\":", "paragraph \"after\":"]

/-- The interpreter state right after `container:` has been processed from
a fresh run: one `container` frame open at indentation 0. -/
def openContainerState : PsuState :=
  { varMap := []
    html_output_buffer := ["<div >"]
    output_filename := "index.html"
    html_tag_stack := ["div"]
    block_stack := [⟨0, "container", "div"⟩]
    skip_current_block := false
    if_conditions_met_stack := [] }

/-! ## Helper lemmas -/

theorem strDataAppend (s t : String) : (s ++ t).data = s.data ++ t.data := by
  cases s; cases t; rfl

theorem strMkData (s : String) : (⟨s.data⟩ : String) = s := by
  cases s; rfl

theorem lookupKey_dictInsert {α : Type} (d : List (String × α)) (k : String) (v : α) :
    lookupKey (dictInsert d k v) k = some v := by
  induction d with
  | nil => simp [dictInsert, lookupKey]
  | cons p t ih =>
      obtain ⟨k', v'⟩ := p
      by_cases hk : (k' == k) = true
      · simp [dictInsert, hk, lookupKey]
      · simp only [dictInsert, hk, Bool.false_eq_true, if_false, lookupKey, ih]

theorem takeWord_append_stop (w : List Char) (c : Char) (r : List Char)
    (hw : ∀ x ∈ w, isWordChar x = true) (hc : isWordChar c = false) :
    takeWord (w ++ c :: r) = w ∧ dropWord (w ++ c :: r) = c :: r := by
  induction w with
  | nil => simp [takeWord, dropWord, List.takeWhile_cons, List.dropWhile_cons, hc]
  | cons a t ih =>
      have ha : isWordChar a = true := hw a (by simp)
      have ht : ∀ x ∈ t, isWordChar x = true := fun x hx => hw x (by simp [hx])
      have ih' := ih ht
      simp [takeWord, dropWord, List.takeWhile_cons, List.dropWhile_cons, ha] at ih' ⊢
      exact ih'

theorem interpAux_marker (vars : List (String × Value)) (n : Nat) (name rest : List Char)
    (hne : name ≠ []) (hwc : ∀ c ∈ name, isWordChar c = true) :
    interpAux vars (n + 1) ('$' :: '\x7b' :: (name ++ '\x7d' :: rest)) =
      (interpSubst vars name).data ++ interpAux vars n rest := by
  have hstop : isWordChar '\x7d' = false := by decide
  have h := takeWord_append_stop name '\x7d' rest hwc hstop
  match name, hne with
  | a :: t, _ =>
      simp only [interpAux, h.1, h.2]

/-- Interpolating exactly one `$\x7bname\x7d` marker yields the
substitution for `name`. -/
theorem interp_single_marker (vars : List (String × Value)) (name : String)
    (hne : name.data ≠ []) (hwc : ∀ c ∈ name.data, isWordChar c = true) :
    interpolate_variables vars ("$\x7b" ++ name ++ "\x7d") = interpSubst vars name.data := by
  have hdata : ("$\x7b" ++ name ++ "\x7d").data = '$' :: '\x7b' :: (name.data ++ '\x7d' :: []) := by
    rw [strDataAppend, strDataAppend]
    simp
  unfold interpolate_variables
  rw [hdata]
  have hlen : ('$' :: '\x7b' :: (name.data ++ '\x7d' :: [])).length = (name.data.length + 2) + 1 := by
    simp
  rw [hlen, interpAux_marker vars (name.data.length + 2) name.data [] hne hwc]
  have : interpAux vars (name.data.length + 2) [] = [] := rfl
  rw [this, List.append_nil, strMkData]

/-! ## Claim theorems -/

/-- C1: an `else:` at the same indentation as its `if` is *not* accepted:
the dedent pass (`line_indent <= top.indent`) pops the `if` frame before
the `else` handler runs, so the handler's structural check fails and the
run aborts with the orphan-`else` error on the `else` line — neither
branch semantics described by the claim ever happens. -/
theorem else_rejected_structural_error :
    execute_psu_script evalNone ifElseScript =
      Except.error ⟨5, "`else` command must immediately follow an `if` block at the same indentation level."⟩ := by
  rfl

/-- C2: a `page` frame still open at end-of-script is closed by the final
cleanup's `pass` branch: no `</body>` or `</html>` line is ever emitted,
and the output buffer at the moment of the file write ends at
`    <body>`. -/
theorem page_not_closed_at_end_of_script :
    (execute_psu_script evalNone pageOnlyScript).map PsuState.html_output_buffer =
      Except.ok ["<!DOCTYPE html>", "<html>", "    <head>",
        "            <title>T</title>", "        </head>", "    <body>"] := by
  rfl

/-- C3: after a `loop` block, the skip flag set by the `loop` handler is
never cleared when the loop frame is popped (only `if` pops recompute
it), so the `paragraph "after"` line at the loop's own indentation is
also suppressed: the run emits nothing at all and finishes with the skip
flag still set. -/
theorem loop_skip_flag_persists_after_block :
    (execute_psu_script evalNone loopScript).map PsuState.html_output_buffer = Except.ok [] ∧
    (execute_psu_script evalNone loopScript).map PsuState.skip_current_block = Except.ok true := by
  exact ⟨rfl, rfl⟩

/-- C4: a bare (unquoted) attribute value is lost: `re.findall` returns
`''` for the non-participating quoted group and the source's
`val1 if val1 is not None else val2` therefore always selects the quoted
group, so `x=abc` maps `x` to `""` instead of `"abc"`, while quoted
values are kept. -/
theorem bare_attribute_value_lost :
    parse_attributes "x=abc" = [("x", "")] ∧
    parse_attributes "a=\"hello\" x=abc" = [("a", "hello"), ("x", "")] := by
  exact ⟨rfl, rfl⟩

/-- C5 counterexample: a comment line (`..end`, indentation 0) arriving
while a `container` frame opened at indentation 0 is on the stack leaves
the state — in particular the block stack — completely unchanged, so the
frame with recorded indentation ≥ the line's indentation is *not* popped
at that line; the open-container state itself arises from a real run
prefix. -/
theorem comment_line_leaves_open_frame :
    runLines evalNone 2 ["container:"] initState = Except.ok openContainerState ∧
    stepLine evalNone 4 "..end" openContainerState = Except.ok openContainerState ∧
    openContainerState.block_stack = [⟨0, "container", "div"⟩] := by
  exact ⟨rfl, rfl, rfl⟩

/-- C5 (amended): lines beginning with `..` and blank lines are ignored
entirely — the interpreter `continue`s before the block-closure pass, so
such a line neither parses as a command nor pops any frame; open frames
close only at the next command line or at end-of-script. -/
theorem comment_and_blank_lines_ignored (ev : PyEval) (idx : Nat) (line : String)
    (st : PsuState)
    (h : strStarts (pyStrip line) ".." = true ∨ pyStrip line = "") :
    stepLine ev idx line st = Except.ok st := by
  unfold stepLine
  rcases h with h | h
  · simp [h]
  · simp [h]

/-- C5 witness: the amended theorem at a concrete comment line. -/
theorem comment_and_blank_lines_ignored_witness :
    stepLine evalNone 7 "..note" initState = Except.ok initState :=
  comment_and_blank_lines_ignored evalNone 7 "..note" initState (Or.inl rfl)

/-- C6 counterexample: the literal test `condition_expr in ['true', 'false']`
is case-sensitive, so the condition `True` is *not* the boolean literal
true — it falls through to variable truthiness (false with no variables,
and the value of a variable literally named `True` when one exists). -/
theorem mixed_case_literal_not_boolean :
    eval_condition [] "True" = false ∧
    eval_condition [("True", Value.vBool true)] "True" = true := by
  exact ⟨rfl, rfl⟩

/-- C6 (amended): only the exact lowercase tokens `true` and `false` are
treated as boolean literals by the `if` evaluator; any other casing is
resolved as a variable name. -/
theorem lowercase_boolean_literals (vars : List (String × Value)) :
    eval_condition vars "true" = true ∧ eval_condition vars "false" = false := by
  exact ⟨rfl, rfl⟩

/-- C7 counterexample: a variable holding the string `"false"` makes a
bare-variable condition *true* — host truthiness of a non-empty string —
contradicting the claim that `"false"` evaluates to false. -/
theorem false_string_variable_is_truthy :
    eval_condition [("b", Value.vStr "false")] "b" = true := by
  exact rfl

/-- C7 (amended): a bare-variable condition is the host truthiness of
`variables.get(expr, False)`: Undefined, boolean false, the number 0 and
the empty string are false, but any non-empty string — including
`"false"` — is true. -/
theorem bare_variable_host_truthiness (vars : List (String × Value)) (name : String)
    (h1 : listHasSub "==".data name.data = false)
    (h2 : listHasSub "!=".data name.data = false)
    (h3 : (name == "true") = false)
    (h4 : (name == "false") = false) :
    eval_condition vars name = pyTruthy ((lookupKey vars name).getD (Value.vBool false)) ∧
    pyTruthy Value.vNone = false ∧
    pyTruthy (Value.vBool false) = false ∧
    pyTruthy (Value.vInt 0) = false ∧
    pyTruthy (Value.vStr "") = false ∧
    pyTruthy (Value.vStr "false") = true := by
  refine ⟨?_, rfl, rfl, by decide, by decide, by decide⟩
  simp [eval_condition, h1, h2, h3, h4]

/-- C7 witness: the amended theorem at the `"false"`-valued variable. -/
theorem bare_variable_host_truthiness_witness :
    eval_condition [("b", Value.vStr "false")] "b" =
      pyTruthy ((lookupKey [("b", Value.vStr "false")] "b").getD (Value.vBool false)) ∧
    pyTruthy Value.vNone = false ∧
    pyTruthy (Value.vBool false) = false ∧
    pyTruthy (Value.vInt 0) = false ∧
    pyTruthy (Value.vStr "") = false ∧
    pyTruthy (Value.vStr "false") = true :=
  bare_variable_host_truthiness [("b", Value.vStr "false")] "b" rfl rfl rfl rfl

/-- C8: a fatal error raised while dispatching any line aborts the whole
remaining run with that error (so the output-file write, which only
happens on a successful run, is never reached); concretely, `item "x":`
outside any `list` block aborts with the structural error citing 1-based
line 3, whatever follows it. -/
theorem structural_error_aborts_run (ev : PyEval) (idx : Nat) (line : String)
    (rest : List String) (st : PsuState) (e : PsuError)
    (h : stepLine ev idx line st = Except.error e) :
    runLines ev idx (line :: rest) st = Except.error e ∧
    execute_psu_script ev ("psload" :: "psstart" :: "item \"x\":" :: rest) =
      Except.error ⟨3, "`item` command must be directly inside a `list` block."⟩ := by
  constructor
  · simp [runLines, h]
  · rfl

/-- C8 witness: the abort theorem at the `item`-outside-`list` line. -/
theorem structural_error_aborts_run_witness :
    runLines evalNone 2 ["item \"x\":"] initState =
      Except.error ⟨3, "`item` command must be directly inside a `list` block."⟩ ∧
    execute_psu_script evalNone ("psload" :: "psstart" :: "item \"x\":" :: []) =
      Except.error ⟨3, "`item` command must be directly inside a `list` block."⟩ :=
  structural_error_aborts_run evalNone 2 "item \"x\":" [] initState
    ⟨3, "`item` command must be directly inside a `list` block."⟩ rfl

/-- C9: for `heading` arguments matching `level=N "text" [attrs]`, a level
in 1..6 emits exactly one `<hN …>text</hN>` line, and a level outside
1..6 aborts with the fatal error "Heading level must be between 1 and
6." citing the 1-based line number. -/
theorem heading_level_validation (idx : Nat) (arg : String) (st : PsuState)
    (level : Nat) (text rest : String)
    (hm : matchHeading arg = some (level, text, rest)) :
    (1 ≤ level ∧ level ≤ 6 →
      cmdHeading idx arg st = Except.ok (append_html_line st
        ("<h" ++ toString level ++ " " ++
          attrsHtmlStr st.varMap (parse_attributes (pyStrip rest)) ++ ">" ++
          interpolate_variables st.varMap text ++ "</h" ++ toString level ++ ">"))) ∧
    (¬(1 ≤ level ∧ level ≤ 6) →
      cmdHeading idx arg st = Except.error ⟨idx + 1, "Heading level must be between 1 and 6."⟩) := by
  constructor
  · intro h
    simp [cmdHeading, hm, h]
  · intro h
    simp [cmdHeading, hm, h]

/-- C9 witness: the validation theorem at `level=7 "x"`. -/
theorem heading_level_validation_witness :
    cmdHeading 2 "level=7 \"x\"" initState =
      Except.error ⟨3, "Heading level must be between 1 and 6."⟩ :=
  (heading_level_validation 2 "level=7 \"x\"" initState 7 "x" "" rfl).2 (by decide)

/-- C10: when a `set` expression is no literal and its restricted
evaluation fails with a caught error, the variable is stored as the host
`None`, so interpolating `$\x7bname\x7d` afterwards substitutes the
string "None" — while the `UNDEFINED_VAR_name` sentinel appears only for
a name with no stored entry at all. -/
theorem failed_set_eval_stores_none (ev : PyEval) (idx : Nat) (arg : String)
    (st : PsuState) (name expr : String)
    (hm : matchSet arg = some (name, expr))
    (hq : isQuotedExpr expr = false)
    (hb : isBoolLitExpr expr = false)
    (hn : isNumLit expr = false)
    (he : ev expr st.varMap = Except.error PyEvalErr.evalCaught)
    (hid : name.data ≠ [] ∧ ∀ c ∈ name.data, isWordChar c = true) :
    cmdSet ev idx arg st =
      Except.ok { st with varMap := dictInsert st.varMap name Value.vNone } ∧
    interpolate_variables (dictInsert st.varMap name Value.vNone)
      ("$\x7b" ++ name ++ "\x7d") = "None" ∧
    (lookupKey st.varMap name = none →
      interpolate_variables st.varMap ("$\x7b" ++ name ++ "\x7d") = "UNDEFINED_VAR_" ++ name) := by
  refine ⟨?_, ?_, ?_⟩
  · simp [cmdSet, hm, hq, hb, hn, he]
  · rw [interp_single_marker _ _ hid.1 hid.2]
    unfold interpSubst
    rw [strMkData, lookupKey_dictInsert]
    rfl
  · intro habs
    rw [interp_single_marker _ _ hid.1 hid.2]
    unfold interpSubst
    rw [strMkData, habs]

/-- C10 witness: the stored-`None` theorem at `set x = y + 1;` with a
failing evaluation oracle. -/
theorem failed_set_eval_stores_none_witness :
    cmdSet evalNone 2 "x = y + 1;" initState =
      Except.ok { initState with varMap := dictInsert initState.varMap "x" Value.vNone } ∧
    interpolate_variables (dictInsert initState.varMap "x" Value.vNone)
      ("$\x7b" ++ "x" ++ "\x7d") = "None" ∧
    (lookupKey initState.varMap "x" = none →
      interpolate_variables initState.varMap ("$\x7b" ++ "x" ++ "\x7d") = "UNDEFINED_VAR_" ++ "x") :=
  failed_set_eval_stores_none evalNone 2 "x = y + 1;" initState "x" "y + 1"
    rfl rfl rfl rfl rfl ⟨by decide, by decide⟩

